import Mathlib

/-!
Verification of the in-memory product catalog HTTP service (`src/server.js`).

The service is shallowly embedded: request handling is modelled as pure
functions from a request and the current product list to a response and the
new product list.  JavaScript primitives that the handlers rely on
(`parseInt`, `Array.prototype.slice`, string `includes`/`toLowerCase`,
truthiness of possibly-undefined strings) are modelled explicitly, with
`Option` standing for possibly-`undefined`/`NaN` values.
-/

namespace ProductApi

/-! ## JavaScript primitives -/

/-- A JavaScript number restricted to the integers produced by `parseInt`:
`none` models `NaN`. -/
abbrev JSNum := Option Int

/-- Addition on `parseInt` results: `NaN` is absorbing. -/
def jsAdd : JSNum → JSNum → JSNum
  | some a, some b => some (a + b)
  | _, _ => none

/-- Subtraction on `parseInt` results: `NaN` is absorbing. -/
def jsSub : JSNum → JSNum → JSNum
  | some a, some b => some (a - b)
  | _, _ => none

/-- Multiplication on `parseInt` results: `NaN` is absorbing. -/
def jsMul : JSNum → JSNum → JSNum
  | some a, some b => some (a * b)
  | _, _ => none

/-- Accumulate the leading decimal digits of a character list, stopping at the
first non-digit; the accumulator is `none` while no digit has been seen
(JavaScript `parseInt` returns `NaN` when no digit is consumed). -/
def parseDigits : List Char → Option Nat → Option Nat
  | [], acc => acc
  | c :: rest, acc =>
    if c.isDigit then parseDigits rest (some ((acc.getD 0) * 10 + (c.toNat - 48)))
    else acc

/-- JavaScript `parseInt` on a string with radix 10 behaviour: skip leading
whitespace, take an optional sign, then the longest decimal-digit prefix;
`none` (`NaN`) when no digit is consumed.  (The `0x` hexadecimal prefix is not
modelled; no input in the service's contracts uses it.) -/
def jsParseInt (s : String) : JSNum :=
  match s.data.dropWhile Char.isWhitespace with
  | '-' :: rest => (parseDigits rest none).map (fun n => -(n : Int))
  | '+' :: rest => (parseDigits rest none).map (fun n => (n : Int))
  | cs => (parseDigits cs none).map (fun n => (n : Int))

/-- Resolve a `slice` argument against a list length the way
`Array.prototype.slice` does: negative indices count from the end (clamped to
0), nonnegative indices are clamped to the length. -/
def jsResolve (len : Nat) (i : Int) : Nat :=
  if i < 0 then ((len : Int) + i).toNat else min i.toNat len

/-- JavaScript `Array.prototype.slice(start, end)` where both arguments are
numbers that may be `NaN` (`none`); `ToIntegerOrInfinity` sends `NaN` to 0. -/
def jsSlice {α : Type} (xs : List α) (start stop : JSNum) : List α :=
  (xs.drop (jsResolve xs.length (start.getD 0))).take
    (jsResolve xs.length (stop.getD 0) - jsResolve xs.length (start.getD 0))

/-- JavaScript truthiness of a possibly-`undefined` string value:
`undefined` and the empty string are falsy. -/
def strTruthy : Option String → Bool
  | none => false
  | some s => s ≠ ""

/-- `needle` occurs as a contiguous segment of `hay`. -/
def hasSegment (hay needle : List Char) : Bool :=
  match hay with
  | [] => needle.isEmpty
  | _ :: rest => needle.isPrefixOf hay || hasSegment rest needle

/-- JavaScript `toLowerCase` on one character, restricted to ASCII letters
(the only letters occurring in the service's data and contracts). -/
def jsCharLower (c : Char) : Char :=
  if 65 ≤ c.toNat ∧ c.toNat ≤ 90 then Char.ofNat (c.toNat + 32) else c

/-- JavaScript `String.prototype.toLowerCase` as a character list. -/
def jsToLower (s : String) : List Char := s.data.map jsCharLower

/-! ## Data model -/

/-- A product record as stored in the in-memory collection
(`src/server.js`, seed array and `POST` handler). `description` and
`category` may be `undefined`. -/
structure Product where
  id : String
  name : String
  description : Option String
  price : Int
  category : Option String
  inStock : Bool
deriving Repr, DecidableEq

/-- A parsed JSON request body for create/update: every field may be absent.
(`price` is restricted to the integers; no contract of the service involves
fractional prices.) -/
structure Body where
  id : Option String
  name : Option String
  description : Option String
  price : Option Int
  category : Option String
  inStock : Option Bool
deriving Repr, DecidableEq

/-- The empty request body `{}`. -/
def emptyBody : Body :=
  { id := none, name := none, description := none, price := none,
    category := none, inStock := none }

/-- The query string of a request; each parameter may be absent. -/
structure Query where
  category : Option String
  page : Option String
  limit : Option String
  name : Option String
deriving Repr, DecidableEq

/-- An empty query string. -/
def emptyQuery : Query :=
  { category := none, page := none, limit := none, name := none }

/-- HTTP request methods used by the service. -/
inductive Method where
  | GET | POST | PUT | DELETE
deriving Repr, DecidableEq

/-- An incoming HTTP request: method, path split into segments, query
parameters, the `x-api-key` header if present, and the parsed JSON body. -/
structure Request where
  method : Method
  path : List String
  query : Query
  apiKey : Option String
  body : Body
deriving Repr, DecidableEq

/-- The JSON payload of a response, one constructor per envelope shape the
service emits. -/
inductive ResBody where
  /-- plain text reply (`res.send`) -/
  | text (s : String)
  /-- success envelope of the list endpoint, with `page` (the parsed number,
  `none` for `NaN`), `total`, and `data` -/
  | listEnv (page : JSNum) (total : Nat) (data : List Product)
  /-- success envelope of the search endpoint, with `count` and `data` -/
  | searchEnv (count : Nat) (data : List Product)
  /-- success envelope of the stats endpoint, carrying the category-count
  object as an insertion-ordered association list -/
  | statsEnv (stats : List (String × Nat))
  /-- success envelope with an optional `message` and a single product -/
  | dataEnv (message : Option String) (data : Product)
  /-- error envelope, with `message` (the `status` field is "error") -/
  | errorEnv (message : String)
deriving Repr, DecidableEq

/-- An HTTP response: status code and JSON payload. -/
structure Response where
  statusCode : Nat
  body : ResBody
deriving Repr, DecidableEq

/-! ## Error model -/

/-- An error object reaching the global error handler: its message and its
`statusCode` property (`none` when the property is absent, as on a plain
JavaScript `Error`). -/
structure AppError where
  message : String
  statusCode : Option Nat
deriving Repr, DecidableEq

/-- `NotFoundError` (`src/server.js` lines 65-69): status 404. -/
def notFoundError (message : String) : AppError :=
  { message := message, statusCode := some 404 }

/-- `ValidationError` (`src/server.js` lines 71-75): status 400. -/
def validationError (message : String) : AppError :=
  { message := message, statusCode := some 400 }

/-- The `ReferenceError` raised when the search handler evaluates the unbound
identifier `next` (`src/server.js` line 142: the handler's parameter list is
`(req, res)`, so `next` is not in scope).  Express catches the synchronous
throw and forwards it to the error handler; a `ReferenceError` has no
`statusCode` property. -/
def nextNotDefinedError : AppError :=
  { message := "next is not defined", statusCode := none }

/-- The global error handler (`src/server.js` lines 237-243):
`res.status` with `err.statusCode || 500` and a body of `status: "error"` with `err.message`. -/
def errorHandler (e : AppError) : Response :=
  { statusCode := e.statusCode.getD 500, body := .errorEnv e.message }

/-! ## Middleware -/

/-- The authentication middleware (`src/server.js` lines 29-38) forwards
exactly when the `x-api-key` header is present and equals `mysecretapikey`
(`!apiKey || apiKey !== "mysecretapikey"` fails otherwise, reading the header value with JavaScript truthiness). -/
def authOk (apiKey : Option String) : Bool :=
  match apiKey with
  | none => false
  | some k => k ≠ "" && k = "mysecretapikey"

/-- The inline 401 response the authentication middleware sends itself. -/
def unauthorizedResponse : Response :=
  { statusCode := 401,
    body := .errorEnv "Unauthorized: Missing or invalid API key" }

/-- The validation middleware (`src/server.js` lines 41-53): `name` must be
present and truthy (a non-empty string), `price` must be present (and a
number, which the typed body guarantees).  Returns the `ValidationError`
passed to `next`, or `none` when validation forwards. -/
def validateProduct (b : Body) : Option AppError :=
  if strTruthy b.name = false then
    some (validationError "Product name is required and must be a string")
  else if b.price = none then
    some (validationError "Product price is required and must be a number")
  else none

/-! ## Seed data -/

/-- Seed record 1 (`src/server.js` lines 81-88). -/
def laptop : Product :=
  { id := "1", name := "Laptop",
    description := some "High-performance laptop with 16GB RAM",
    price := 1200, category := some "electronics", inStock := true }

/-- Seed record 2 (`src/server.js` lines 89-96). -/
def smartphone : Product :=
  { id := "2", name := "Smartphone",
    description := some "Latest model with 128GB storage",
    price := 800, category := some "electronics", inStock := true }

/-- Seed record 3 (`src/server.js` lines 97-104). -/
def coffeeMaker : Product :=
  { id := "3", name := "Coffee Maker",
    description := some "Programmable coffee maker with timer",
    price := 50, category := some "kitchen", inStock := false }

/-- The initial in-memory collection (`src/server.js` lines 80-105). -/
def seedProducts : List Product := [laptop, smartphone, coffeeMaker]

/-! ## Handlers -/

/-- The parsed `page` query value: destructuring defaults it to 1 when the
parameter is absent, then `parseInt` runs (`parseInt(1)` is 1). -/
def pageOf : Option String → JSNum
  | none => some 1
  | some s => jsParseInt s

/-- The parsed `limit` query value: destructuring defaults it to 3 when the
parameter is absent, then `parseInt` runs (`parseInt(3)` is 3). -/
def limitOf : Option String → JSNum
  | none => some 3
  | some s => jsParseInt s

/-- The category filter of the list endpoint: applied only when the
`category` query value is truthy, by strict equality on the `category`
field. -/
def listFiltered (category : Option String) (products : List Product) :
    List Product :=
  if strTruthy category then products.filter (fun p => p.category == category)
  else products

/-- `GET /api/products` (`src/server.js` lines 117-137): optional exact
category filter, then `filtered.slice((page-1)*limit, (page-1)*limit+limit)`;
the envelope reports the parsed `page` and the pre-pagination `total`. -/
def listHandler (q : Query) (products : List Product) : Response :=
  let page := pageOf q.page
  let limit := limitOf q.limit
  let filtered := listFiltered q.category products
  let start := jsMul (jsSub page (some 1)) limit
  let stop := jsAdd start limit
  let paginated := jsSlice filtered start stop
  { statusCode := 200, body := .listEnv page filtered.length paginated }

/-- The predicate of the search filter (`src/server.js` lines 144-146):
`p.name.toLowerCase().includes(name.toLowerCase())`. -/
def searchMatches (term : String) (p : Product) : Bool :=
  hasSegment (jsToLower p.name) (jsToLower term)

/-- `GET /api/products/search` (`src/server.js` lines 140-153).  When the
`name` query value is falsy the handler evaluates `next(...)` with `next`
unbound — a `ReferenceError` that Express routes to the error handler. -/
def searchHandler (q : Query) (products : List Product) : Except AppError Response :=
  if strTruthy q.name = false then .error nextNotDefinedError
  else
    let term := q.name.getD ""
    let results := products.filter (searchMatches term)
    .ok { statusCode := 200, body := .searchEnv results.length results }

/-- The object key a product's `category` contributes to the stats object:
JavaScript coerces an `undefined` property key to the string `"undefined"`. -/
def categoryKey (p : Product) : String :=
  match p.category with
  | some c => c
  | none => "undefined"

/-- One step of the stats reduction: `acc[k] = (acc[k] || 0) + 1` on an
insertion-ordered association list. -/
def bumpCount (acc : List (String × Nat)) (k : String) : List (String × Nat) :=
  match acc with
  | [] => [(k, 1)]
  | (k', n) :: rest =>
    if k' = k then (k', n + 1) :: rest else (k', n) :: bumpCount rest k

/-- The stats object (`src/server.js` lines 157-160): a single `reduce` pass
counting records per category. -/
def statsOf (products : List Product) : List (String × Nat) :=
  products.foldl (fun acc p => bumpCount acc (categoryKey p)) []

/-- `GET /api/products/stats` (`src/server.js` lines 156-166). -/
def statsHandler (products : List Product) : Response :=
  { statusCode := 200, body := .statsEnv (statsOf products) }

/-- The message of the by-id `NotFoundError`s
(`Product with ID ${id} not found`). -/
def idNotFoundMessage (id : String) : String :=
  "Product with ID " ++ id ++ " not found"

/-- `GET /api/products/:id` (`src/server.js` lines 169-177). -/
def getByIdHandler (id : String) (products : List Product) :
    Except AppError Response :=
  match products.find? (fun p => p.id == id) with
  | none => .error (notFoundError (idNotFoundMessage id))
  | some p => .ok { statusCode := 200, body := .dataEnv none p }

/-- The record built by the create handler (`src/server.js` lines 181-189):
the generated id, the destructured body fields, `inStock ?? true`.  The
handler runs only after validation, so `name` and `price` are present; the
defaults supplied to `getD` are never reached on those fields. -/
def newProductOf (freshId : String) (b : Body) : Product :=
  { id := freshId, name := b.name.getD "", description := b.description,
    price := b.price.getD 0, category := b.category,
    inStock := b.inStock.getD true }

/-- `POST /api/products` handler body (`src/server.js` lines 180-198), after
authentication and validation: push the new record, reply 201.  `freshId` is
the value produced by the `uuidv4()` primitive. -/
def createHandler (freshId : String) (b : Body) (products : List Product) :
    Response × List Product :=
  let newProduct := newProductOf freshId b
  ({ statusCode := 201,
     body := .dataEnv (some "Product successfully added") newProduct },
   products ++ [newProduct])

/-- The shallow merge `{...existing, ...body}` of the update handler
(`src/server.js` line 206): every field present in the body overwrites the
existing record's field — including `id` when the body carries one. -/
def mergeBody (p : Product) (b : Body) : Product :=
  { id := b.id.getD p.id,
    name := b.name.getD p.name,
    description := match b.description with
      | some d => some d
      | none => p.description,
    price := b.price.getD p.price,
    category := match b.category with
      | some c => some c
      | none => p.category,
    inStock := b.inStock.getD p.inStock }

/-- `PUT /api/products/:id` handler body (`src/server.js` lines 201-213),
after authentication and validation: `findIndex` by id, 404 when absent,
otherwise replace the record at that index with the shallow merge. -/
def updateHandler (id : String) (b : Body) (products : List Product) :
    Except AppError (Response × List Product) :=
  match products.findIdx? (fun p => p.id == id) with
  | none => .error (notFoundError (idNotFoundMessage id))
  | some i =>
    let updated := mergeBody (products.getD i (newProductOf "" emptyBody)) b
    .ok ({ statusCode := 200,
           body := .dataEnv (some "Product successfully updated") updated },
         products.set i updated)

/-- `DELETE /api/products/:id` handler body (`src/server.js` lines 216-228),
after authentication: `findIndex` by id, 404 when absent, otherwise
`splice(index, 1)` and reply with the removed record. -/
def deleteHandler (id : String) (products : List Product) :
    Except AppError (Response × List Product) :=
  match products.findIdx? (fun p => p.id == id) with
  | none => .error (notFoundError (idNotFoundMessage id))
  | some i =>
    let deleted := products.getD i (newProductOf "" emptyBody)
    .ok ({ statusCode := 200,
           body := .dataEnv (some "Product successfully deleted") deleted },
         products.eraseIdx i)

/-! ## Route dispatch -/

/-- The handler a request is dispatched to; parameterised routes carry the
captured `:id` segment. -/
inductive RouteTarget where
  | root
  | list
  | search
  | stats
  | getById (id : String)
  | create
  | update (id : String)
  | delete (id : String)
deriving Repr, DecidableEq

/-- Express route matching in registration order (`src/server.js` lines
112-228): the static `search` and `stats` paths are registered before the
parameterised `/:id` pattern, so the first two equations here shadow the
`getById` equation.  `none` means no route matched and the request falls
through to the catch-all. -/
def dispatch : Method → List String → Option RouteTarget
  | .GET, [] => some .root
  | .GET, ["api", "products"] => some .list
  | .GET, ["api", "products", "search"] => some .search
  | .GET, ["api", "products", "stats"] => some .stats
  | .GET, ["api", "products", id] => some (.getById id)
  | .POST, ["api", "products"] => some .create
  | .PUT, ["api", "products", id] => some (.update id)
  | .DELETE, ["api", "products", id] => some (.delete id)
  | _, _ => none

/-- The whole request pipeline: dispatch, route middleware (authentication,
validation), handler, and the terminal error handler; the catch-all raises
`NotFoundError` with message "Route not found" (`src/server.js` lines 231-233).
`freshId` is the `uuidv4()` primitive's output, threaded in as a parameter.
Returns the response together with the product collection after the
request. -/
def handle (freshId : String) (req : Request) (products : List Product) :
    Response × List Product :=
  match dispatch req.method req.path with
  | some .root => ({ statusCode := 200, body := .text "Hello World 🚀" }, products)
  | some .list => (listHandler req.query products, products)
  | some .search =>
    match searchHandler req.query products with
    | .ok r => (r, products)
    | .error e => (errorHandler e, products)
  | some .stats => (statsHandler products, products)
  | some (.getById id) =>
    match getByIdHandler id products with
    | .ok r => (r, products)
    | .error e => (errorHandler e, products)
  | some .create =>
    if authOk req.apiKey = false then (unauthorizedResponse, products)
    else
      match validateProduct req.body with
      | some e => (errorHandler e, products)
      | none => createHandler freshId req.body products
  | some (.update id) =>
    if authOk req.apiKey = false then (unauthorizedResponse, products)
    else
      match validateProduct req.body with
      | some e => (errorHandler e, products)
      | none =>
        match updateHandler id req.body products with
        | .ok rp => rp
        | .error e => (errorHandler e, products)
  | some (.delete id) =>
    if authOk req.apiKey = false then (unauthorizedResponse, products)
    else
      match deleteHandler id products with
      | .ok rp => rp
      | .error e => (errorHandler e, products)
  | none => (errorHandler (notFoundError "Route not found"), products)

/-! ## Request constructors -/

/-- A `GET /api/products` request with the given query. -/
def listRequest (q : Query) : Request :=
  { method := .GET, path := ["api", "products"], query := q,
    apiKey := none, body := emptyBody }

/-- A `GET /api/products/search` request with an optional `name` term. -/
def searchRequest (term : Option String) : Request :=
  { method := .GET, path := ["api", "products", "search"],
    query := { emptyQuery with name := term }, apiKey := none,
    body := emptyBody }

/-- A `GET /api/products/stats` request. -/
def statsRequest : Request :=
  { method := .GET, path := ["api", "products", "stats"], query := emptyQuery,
    apiKey := none, body := emptyBody }

/-- A `GET /api/products/:id` request. -/
def getIdRequest (id : String) : Request :=
  { method := .GET, path := ["api", "products", id], query := emptyQuery,
    apiKey := none, body := emptyBody }

/-- A `POST /api/products` request with the given `x-api-key` header and
body. -/
def postRequest (key : Option String) (b : Body) : Request :=
  { method := .POST, path := ["api", "products"], query := emptyQuery,
    apiKey := key, body := b }

/-- A `PUT /api/products/:id` request with the given `x-api-key` header and
body. -/
def putRequest (id : String) (key : Option String) (b : Body) : Request :=
  { method := .PUT, path := ["api", "products", id], query := emptyQuery,
    apiKey := key, body := b }

/-- A `DELETE /api/products/:id` request with the given `x-api-key`
header. -/
def deleteRequest (id : String) (key : Option String) : Request :=
  { method := .DELETE, path := ["api", "products", id], query := emptyQuery,
    apiKey := key, body := emptyBody }

/-- A request whose method and path match no registered route. -/
def unknownRequest : Request :=
  { method := .GET, path := ["api", "unknown"], query := emptyQuery,
    apiKey := none, body := emptyBody }

/-- A valid creation body: truthy `name`, numeric `price`, no `inStock`. -/
def widgetBody : Body :=
  { id := none, name := some "Widget", description := some "A small widget",
    price := some 25, category := some "gadgets", inStock := none }

/-- A valid update body that does not carry an `id` field. -/
def partialBody : Body :=
  { id := none, name := some "Gaming Laptop", description := none,
    price := some 1500, category := none, inStock := none }

/-- An update body that carries an `id` field of its own. -/
def idOverrideBody : Body :=
  { id := some "999", name := some "Laptop", description := none,
    price := some 1200, category := none, inStock := none }

/-! ## The spec-side pagination slice

The spec describes the page as the records at indices
`[(page-1)*limit, (page-1)*limit+limit)` of the filtered list, out-of-range
indices yielding an empty slice rather than an error.  `specSlice` is that
description verbatim, for comparison with the implementation's `jsSlice`. -/

/-- The slice the spec describes: the records of `xs` at the (integer)
indices in `[s, e)`; indices outside `[0, xs.length)` contribute nothing. -/
def specSlice {α : Type} (xs : List α) (s e : Int) : List α :=
  (xs.drop s.toNat).take (e.toNat - s.toNat)

/-- Read a count out of the stats object: the value at key `k`, 0 when the
key is absent (the `acc[k] || 0` read). -/
def lookupCount (stats : List (String × Nat)) (k : String) : Nat :=
  match stats with
  | [] => 0
  | (k', n) :: rest => if k' = k then n else lookupCount rest k

/-! ## Helper lemmas -/

theorem authOk_iff (key : Option String) :
    authOk key = true ↔ key = some "mysecretapikey" := by
  cases key with
  | none => simp [authOk]
  | some k =>
    simp only [authOk, Bool.and_eq_true, decide_eq_true_eq, Option.some.injEq]
    constructor
    · rintro ⟨-, rfl⟩; rfl
    · rintro rfl; exact ⟨by decide, rfl⟩

theorem authOk_eq_false (key : Option String)
    (h : key ≠ some "mysecretapikey") : authOk key = false := by
  rcases hb : authOk key with - | -
  · rfl
  · exact absurd ((authOk_iff key).mp hb) h

theorem validateProduct_statusCode (b : Body) (e : AppError)
    (h : validateProduct b = some e) : e.statusCode = some 400 := by
  unfold validateProduct at h
  split_ifs at h with h1 h2
  · injection h with h'; subst h'; rfl
  · injection h with h'; subst h'; rfl

theorem isPrefixOf_iff (l₁ l₂ : List Char) :
    l₁.isPrefixOf l₂ = true ↔ ∃ r, l₂ = l₁ ++ r := by
  induction l₁ generalizing l₂ with
  | nil => simp [ List.isPrefixOf]
  | cons a as ih =>
    cases l₂ with
    | nil => simp [ List.isPrefixOf]
    | cons b bs =>
      simp only [ List.isPrefixOf, Bool.and_eq_true, beq_iff_eq, ih,
        List.cons_append, List.cons.injEq]
      constructor
      · rintro ⟨rfl, r, rfl⟩; exact ⟨r, rfl, rfl⟩
      · rintro ⟨r, rfl, rfl⟩; exact ⟨rfl, r, rfl⟩

theorem hasSegment_iff (hay needle : List Char) :
    hasSegment hay needle = true ↔ ∃ l r, hay = l ++ (needle ++ r) := by
  induction hay with
  | nil =>
    simp only [hasSegment, List.isEmpty_iff]
    constructor
    · rintro rfl; exact ⟨[], [], rfl⟩
    · rintro ⟨l, r, h⟩
      rcases List.append_eq_nil.mp h.symm with ⟨rfl, h2⟩
      rcases List.append_eq_nil.mp h2 with ⟨rfl, rfl⟩
      rfl
  | cons c rest ih =>
    simp only [hasSegment, Bool.or_eq_true, isPrefixOf_iff, ih]
    constructor
    · rintro (⟨r, h⟩ | ⟨l, r, rfl⟩)
      · exact ⟨[], r, by simpa using h⟩
      · exact ⟨c :: l, r, rfl⟩
    · rintro ⟨l, r, h⟩
      cases l with
      | nil => exact Or.inl ⟨r, by simpa using h⟩
      | cons x xs =>
        injection h with h1 h2
        exact Or.inr ⟨xs, r, h2⟩

theorem drop_take_clamp {α : Type} (xs : List α) (a b : Nat) :
    (xs.drop (min a xs.length)).take (min b xs.length - min a xs.length) =
      (xs.drop a).take (b - a) := by
  rcases Nat.le_total xs.length a with h | h
  · rw [min_eq_right h, List.drop_eq_nil_of_le (Nat.le_refl _),
      List.drop_eq_nil_of_le h]
    simp
  · rw [min_eq_left h]
    rcases Nat.le_total xs.length b with h2 | h2
    · rw [min_eq_right h2,
        List.take_of_length_le (by simp [List.length_drop]),
        List.take_of_length_le (by simp [List.length_drop]; omega)]
    · rw [min_eq_left h2]

theorem jsResolve_nonneg (len : Nat) (i : Int) (h : 0 ≤ i) :
    jsResolve len i = min i.toNat len := by
  unfold jsResolve
  rw [if_neg (by omega)]

theorem jsSlice_eq_specSlice {α : Type} (xs : List α) (s e : Int)
    (hs : 0 ≤ s) (he : 0 ≤ e) :
    jsSlice xs (some s) (some e) = specSlice xs s e := by
  unfold jsSlice specSlice
  simp only [Option.getD_some, jsResolve_nonneg _ _ hs, jsResolve_nonneg _ _ he]
  exact drop_take_clamp xs s.toNat e.toNat

theorem jsSlice_nan {α : Type} (xs : List α) : jsSlice xs none none = [] := by
  unfold jsSlice jsResolve
  simp

theorem dispatch_getById (id : String) (h1 : id ≠ "search")
    (h2 : id ≠ "stats") :
    dispatch .GET ["api", "products", id] = some (.getById id) := by
  unfold dispatch
  split <;> simp_all

theorem lookupCount_bumpCount (acc : List (String × Nat)) (k c : String) :
    lookupCount (bumpCount acc k) c =
      lookupCount acc c + (if k = c then 1 else 0) := by
  induction acc with
  | nil =>
    by_cases h : k = c <;> simp [bumpCount, lookupCount, h]
  | cons kn rest ih =>
    obtain ⟨k', n⟩ := kn
    by_cases h1 : k' = k
    · have hb : bumpCount ((k', n) :: rest) k = (k', n + 1) :: rest := by
        simp [bumpCount, h1]
      rw [hb]
      by_cases h2 : k' = c
      · have hkc : k = c := h1.symm.trans h2
        simp [lookupCount, h2, hkc]
      · have hkc : k ≠ c := fun h => h2 (h1.trans h)
        simp [lookupCount, h2, hkc]
    · have hb : bumpCount ((k', n) :: rest) k = (k', n) :: bumpCount rest k := by
        simp [bumpCount, h1]
      rw [hb]
      by_cases h2 : k' = c
      · have hkc : k ≠ c := fun h => h1 (h2.trans h.symm)
        simp [lookupCount, h2, hkc]
      · simp [lookupCount, h2, ih]

theorem keys_bumpCount (acc : List (String × Nat)) (k c : String) :
    c ∈ (bumpCount acc k).map Prod.fst ↔
      c = k ∨ c ∈ acc.map Prod.fst := by
  induction acc with
  | nil => simp [bumpCount, eq_comm]
  | cons kn rest ih =>
    obtain ⟨k', n⟩ := kn
    by_cases h1 : k' = k
    · have hb : bumpCount ((k', n) :: rest) k = (k', n + 1) :: rest := by
        simp [bumpCount, h1]
      rw [hb]
      subst h1
      simp only [List.map_cons, List.mem_cons]
      tauto
    · have hb : bumpCount ((k', n) :: rest) k = (k', n) :: bumpCount rest k := by
        simp [bumpCount, h1]
      rw [hb]
      simp only [List.map_cons, List.mem_cons, ih]
      tauto

theorem lookupCount_statsAux (ps : List Product) (acc : List (String × Nat))
    (c : String) :
    lookupCount (ps.foldl (fun a p => bumpCount a (categoryKey p)) acc) c =
      lookupCount acc c + ps.countP (fun p => categoryKey p == c) := by
  induction ps generalizing acc with
  | nil => simp
  | cons p ps ih =>
    simp only [List.foldl_cons, ih, lookupCount_bumpCount, List.countP_cons,
      beq_iff_eq]
    by_cases h : categoryKey p = c
    · simp only [h, if_true, if_pos rfl]
      omega
    · simp only [if_neg h]
      omega

theorem keys_statsAux (ps : List Product) (acc : List (String × Nat))
    (c : String) :
    (c ∈ (ps.foldl (fun a p => bumpCount a (categoryKey p)) acc).map Prod.fst
      ↔ c ∈ acc.map Prod.fst ∨ ∃ p ∈ ps, categoryKey p = c) := by
  induction ps generalizing acc with
  | nil => simp
  | cons p ps ih =>
    simp only [List.foldl_cons, ih, keys_bumpCount, List.mem_cons]
    constructor
    · rintro ((rfl | h) | h)
      · exact Or.inr ⟨p, Or.inl rfl, rfl⟩
      · exact Or.inl h
      · rcases h with ⟨q, hq, hc⟩
        exact Or.inr ⟨q, Or.inr hq, hc⟩
    · rintro (h | ⟨q, (rfl | hq), hc⟩)
      · exact Or.inl (Or.inr h)
      · exact Or.inl (Or.inl hc.symm)
      · exact Or.inr ⟨q, hq, hc⟩

theorem handle_eq_getById (fid id : String) (ps : List Product)
    (h1 : id ≠ "search") (h2 : id ≠ "stats") :
    handle fid (getIdRequest id) ps =
      (match getByIdHandler id ps with
       | .ok r => (r, ps)
       | .error e => (errorHandler e, ps)) := by
  unfold handle
  rw [show (getIdRequest id).method = Method.GET from rfl,
    show (getIdRequest id).path = ["api", "products", id] from rfl,
    dispatch_getById id h1 h2]

theorem countP_eraseIdx_findIdx? {α : Type} (pred : α → Bool) (ps : List α)
    (i : Nat) (h : ps.findIdx? pred = some i) :
    (ps.eraseIdx i).countP pred + 1 = ps.countP pred := by
  induction ps generalizing i with
  | nil => simp at h
  | cons x xs ih =>
    rw [List.findIdx?_cons] at h
    by_cases hx : pred x
    · rw [if_pos hx] at h
      injection h with h
      subst h
      simp [List.countP_cons, hx]
    · rw [if_neg hx, List.findIdx?_succ] at h
      rcases hfi : xs.findIdx? pred with - | i'
      · rw [hfi] at h; cases h
      · rw [hfi] at h
        injection h with h
        subst h
        simpa [List.eraseIdx_cons_succ, List.countP_cons, hx]
          using ih i' hfi

/-! ## Claim theorems -/

/-- C1: the spec says a search request without a `name` term is a 400
validation failure.  The code constructs the intended `ValidationError` but
passes it to `next`, which the handler never binds: the resulting
`ReferenceError` reaches the error handler, which replies 500 with message
"next is not defined" (and no product records), both for an absent and for
an empty `name`.  The last conjunct shows the 400 response the constructed
`ValidationError` would have produced had `next` been in scope. -/
theorem c1_search_missing_name_yields_500 :
    handle "fresh" (searchRequest none) seedProducts =
      ({ statusCode := 500, body := .errorEnv "next is not defined" },
       seedProducts) ∧
    handle "fresh" (searchRequest (some "")) seedProducts =
      ({ statusCode := 500, body := .errorEnv "next is not defined" },
       seedProducts) ∧
    errorHandler (validationError "Search term \"name\" is required") =
      { statusCode := 400,
        body := .errorEnv "Search term \"name\" is required" } :=
  ⟨rfl, rfl, rfl⟩

/-- C7: the static `search` and `stats` sub-paths are matched before the
parameterised by-id pattern, so neither ever reaches the by-id route; and a
request matching no registered route yields 404 with message
"Route not found". -/
theorem c7_static_routes_before_id :
    dispatch .GET ["api", "products", "search"] = some .search ∧
    dispatch .GET ["api", "products", "stats"] = some .stats ∧
    (∀ id, dispatch .GET ["api", "products", "search"] ≠
      some (.getById id)) ∧
    (∀ id, dispatch .GET ["api", "products", "stats"] ≠
      some (.getById id)) ∧
    (∀ (fid : String) (req : Request) (ps : List Product),
      dispatch req.method req.path = none →
      handle fid req ps =
        ({ statusCode := 404, body := .errorEnv "Route not found" }, ps)) := by
  refine ⟨rfl, rfl, fun id h => ?_, fun id h => ?_, fun fid req ps h => ?_⟩
  · exact RouteTarget.noConfusion (Option.some.inj h.symm)
  · exact RouteTarget.noConfusion (Option.some.inj h.symm)
  · unfold handle
    rw [h]
    rfl

/-- C8: for a non-empty term, the search endpoint returns exactly the
records whose lower-cased name has the lower-cased term as a contiguous
substring, together with their count; on the seed data the term "phone"
matches exactly the record named "Smartphone". -/
theorem c8_search_case_insensitive_substring (ps : List Product)
    (fid term : String) (hterm : term ≠ "") :
    handle fid (searchRequest (some term)) ps =
      ({ statusCode := 200,
         body := .searchEnv (ps.filter (searchMatches term)).length
           (ps.filter (searchMatches term)) }, ps) ∧
    (∀ p : Product, searchMatches term p = true ↔
      ∃ l r, jsToLower p.name = l ++ (jsToLower term ++ r)) ∧
    handle "fresh" (searchRequest (some "phone")) seedProducts =
      ({ statusCode := 200, body := .searchEnv 1 [smartphone] },
       seedProducts) := by
  refine ⟨?_, fun p => hasSegment_iff _ _, by decide⟩
  have h1 : handle fid (searchRequest (some term)) ps =
      (match searchHandler { emptyQuery with name := some term } ps with
       | .ok r => (r, ps)
       | .error e => (errorHandler e, ps)) := rfl
  rw [h1]
  unfold searchHandler
  rw [if_neg (by simp [strTruthy, hterm])]
  rfl

/-- C10: when the `page` or `limit` query value fails to parse as an
integer, the parse yields `NaN`, the slice bounds are `NaN` (which `slice`
coerces to 0), and the handler still succeeds: a 200 envelope with an empty
`data` array and `total` equal to the filtered set's length. -/
theorem c10_list_nan_returns_empty (q : Query) (ps : List Product)
    (fid : String)
    (h : pageOf q.page = none ∨ limitOf q.limit = none) :
    handle fid (listRequest q) ps =
      ({ statusCode := 200,
         body := .listEnv (pageOf q.page)
           (listFiltered q.category ps).length [] }, ps) := by
  have h1 : handle fid (listRequest q) ps = (listHandler q ps, ps) := rfl
  have h2 : listHandler q ps =
      { statusCode := 200,
        body := .listEnv (pageOf q.page) (listFiltered q.category ps).length
          (jsSlice (listFiltered q.category ps)
            (jsMul (jsSub (pageOf q.page) (some 1)) (limitOf q.limit))
            (jsAdd (jsMul (jsSub (pageOf q.page) (some 1)) (limitOf q.limit))
              (limitOf q.limit))) } := rfl
  have hstart : jsMul (jsSub (pageOf q.page) (some 1)) (limitOf q.limit)
      = none := by
    rcases h with h | h
    · rw [h]; cases limitOf q.limit <;> rfl
    · rw [h]; cases pageOf q.page <;> rfl
  have hstop : jsAdd none (limitOf q.limit) = none := by
    cases limitOf q.limit <;> rfl
  rw [h1, h2, hstart, hstop, jsSlice_nan]

/-- Witness for C7 at a concrete unroutable request. -/
theorem c7_static_routes_before_id_witness :
    handle "fresh" unknownRequest seedProducts =
      ({ statusCode := 404, body := .errorEnv "Route not found" },
       seedProducts) :=
  c7_static_routes_before_id.2.2.2.2 "fresh" unknownRequest seedProducts rfl

/-- Witness for C8 at the seed data and the term "phone". -/
theorem c8_search_case_insensitive_substring_witness :
    handle "fresh" (searchRequest (some "phone")) seedProducts =
      ({ statusCode := 200,
         body := .searchEnv (seedProducts.filter (searchMatches "phone")).length
           (seedProducts.filter (searchMatches "phone")) }, seedProducts) :=
  (c8_search_case_insensitive_substring seedProducts "fresh" "phone"
    (by decide)).1

/-- C2 counterexample: an authorised, validated update of the existing id
"1" whose body carries an `id` field of "999" reassigns the stored record's
id — the shallow merge `{...existing, ...body}` spreads every body field
over the record, `id` included — so the claim is false as stated for
request bodies that provide `id`. -/
theorem c2_counterexample_body_id_overwrites :
    (handle "fresh" (putRequest "1" (some "mysecretapikey") idOverrideBody)
        seedProducts).2.map Product.id = ["999", "2", "3"] ∧
    seedProducts.map Product.id = ["1", "2", "3"] :=
  ⟨by decide, by decide⟩

/-- C2 (amended): an authorised, validated update of an existing id replaces
the record with the shallow merge of the provided fields over the prior
record; every field the body does not provide is unchanged, the id is
unchanged provided the body does not itself carry an `id` field, and every
other record is untouched. -/
theorem c2_update_shallow_merge (ps : List Product) (b : Body)
    (id fid : String) (i : Nat)
    (hv : validateProduct b = none) (hid : b.id = none)
    (hfind : ps.findIdx? (fun p => p.id == id) = some i) :
    ∃ old : Product, ps[i]? = some old ∧
      handle fid (putRequest id (some "mysecretapikey") b) ps =
        ({ statusCode := 200,
           body := .dataEnv (some "Product successfully updated")
             (mergeBody old b) },
         ps.set i (mergeBody old b)) ∧
      (mergeBody old b).id = old.id ∧
      (b.name = none → (mergeBody old b).name = old.name) ∧
      (b.description = none →
        (mergeBody old b).description = old.description) ∧
      (b.price = none → (mergeBody old b).price = old.price) ∧
      (b.category = none → (mergeBody old b).category = old.category) ∧
      (b.inStock = none → (mergeBody old b).inStock = old.inStock) ∧
      (∀ j, j ≠ i → (ps.set i (mergeBody old b))[j]? = ps[j]?) := by
  obtain ⟨hi, -, -⟩ := List.findIdx?_eq_some_iff_getElem.mp hfind
  have hgd : ps.getD i (newProductOf "" emptyBody) = ps[i] := by
    rw [List.getD_eq_getElem?_getD, List.getElem?_eq_getElem hi]
    rfl
  have h2 : updateHandler id b ps =
      .ok ({ statusCode := 200,
             body := .dataEnv (some "Product successfully updated")
               (mergeBody (ps.getD i (newProductOf "" emptyBody)) b) },
           ps.set i (mergeBody (ps.getD i (newProductOf "" emptyBody)) b))
      := by
    unfold updateHandler
    rw [hfind]
  have h1 : handle fid (putRequest id (some "mysecretapikey") b) ps =
      (match validateProduct b with
       | some e => (errorHandler e, ps)
       | none =>
         match updateHandler id b ps with
         | .ok rp => rp
         | .error e => (errorHandler e, ps)) := rfl
  refine ⟨ps.getD i (newProductOf "" emptyBody), ?_, ?_,
    by simp [mergeBody, hid],
    fun h => by simp [mergeBody, h], fun h => by simp [mergeBody, h],
    fun h => by simp [mergeBody, h], fun h => by simp [mergeBody, h],
    fun h => by simp [mergeBody, h],
    fun j hj => List.getElem?_set_ne (Ne.symm hj)⟩
  · rw [hgd]
    exact List.getElem?_eq_getElem hi
  · rw [h1, hv, h2]

/-- Witness for C2 (amended) at the seed data: update id "1" with a body
that provides only `name` and `price`. -/
theorem c2_update_shallow_merge_witness :
    handle "fresh" (putRequest "1" (some "mysecretapikey") partialBody)
      seedProducts =
      ({ statusCode := 200,
         body := .dataEnv (some "Product successfully updated")
           (mergeBody laptop partialBody) },
       seedProducts.set 0 (mergeBody laptop partialBody)) := by
  obtain ⟨old, hold, hh, -⟩ :=
    c2_update_shallow_merge seedProducts partialBody "1" "fresh" 0 rfl rfl
      (by decide)
  have he : old = laptop :=
    (Option.some.inj
      ((show seedProducts[0]? = some laptop from rfl).symm.trans hold)).symm
  rw [he] at hh
  exact hh

/-- C3: a create request with a missing or wrong `x-api-key` header is
answered 401 and leaves the collection unchanged; one with a valid key but
a failing body validation — in particular a missing `price` — is answered
400 and leaves the collection unchanged. -/
theorem c3_create_failure_leaves_state (key : Option String) (b : Body)
    (ps : List Product) (fid : String) :
    (key ≠ some "mysecretapikey" →
      handle fid (postRequest key b) ps = (unauthorizedResponse, ps)) ∧
    (∀ e, validateProduct b = some e →
      handle fid (postRequest (some "mysecretapikey") b) ps =
        ({ statusCode := 400, body := .errorEnv e.message }, ps)) ∧
    (b.price = none → strTruthy b.name = true →
      validateProduct b =
        some (validationError
          "Product price is required and must be a number")) := by
  refine ⟨fun hk => ?_, fun e he => ?_, fun hp hn => ?_⟩
  · have h1 : handle fid (postRequest key b) ps =
        (if authOk key = false then (unauthorizedResponse, ps)
         else match validateProduct b with
           | some e => (errorHandler e, ps)
           | none => createHandler fid b ps) := rfl
    rw [h1, authOk_eq_false key hk, if_pos rfl]
  · have h1 : handle fid (postRequest (some "mysecretapikey") b) ps =
        (match validateProduct b with
         | some e => (errorHandler e, ps)
         | none => createHandler fid b ps) := rfl
    rw [h1, he]
    have h4 := validateProduct_statusCode b e he
    simp [errorHandler, h4]
  · unfold validateProduct
    rw [if_neg (by simp [hn]), if_pos hp]

/-- Witness for C3: a missing key, then a missing price, on the seed
data. -/
theorem c3_create_failure_leaves_state_witness :
    handle "fresh" (postRequest none widgetBody) seedProducts =
      (unauthorizedResponse, seedProducts) ∧
    handle "fresh" (postRequest (some "mysecretapikey")
        { widgetBody with price := none }) seedProducts =
      ({ statusCode := 400,
         body := .errorEnv "Product price is required and must be a number" },
       seedProducts) :=
  ⟨(c3_create_failure_leaves_state none widgetBody seedProducts "fresh").1
      (by decide),
   (c3_create_failure_leaves_state (some "mysecretapikey")
      { widgetBody with price := none } seedProducts "fresh").2.1
      (validationError "Product price is required and must be a number")
      rfl⟩

/-- C4 counterexample: with `page=-1` and `limit=2` on the seed data the
index interval of the claim, `[(page-1)*limit, (page-1)*limit+limit)` =
`[-4, -2)`, contains no valid index, yet the handler returns one record:
JavaScript `slice` interprets negative bounds relative to the end of the
array.  The claim is therefore false as stated for negative numeric
page/limit values. -/
theorem c4_counterexample_negative_page :
    listHandler { emptyQuery with page := some "-1", limit := some "2" }
      seedProducts =
      { statusCode := 200, body := .listEnv (some (-1)) 3 [laptop] } ∧
    specSlice seedProducts ((-1 - 1) * 2) ((-1 - 1) * 2 + 2) = [] ∧
    ([laptop] : List Product) ≠ [] :=
  ⟨by decide, by decide, by decide⟩

/-- C4 (amended): for numeric `page ≥ 1` and `limit ≥ 0` the list endpoint
returns the records of the (optionally category-filtered, insertion-ordered)
set at indices `[(page-1)*limit, (page-1)*limit+limit)`, out-of-range
indices yielding an empty slice; `total` is the filtered length before
pagination, the reported page is the requested page, and `page`/`limit`
default to 1 and 3.  (With a negative page or limit the bounds are
interpreted relative to the end of the array instead.) -/
theorem c4_list_pagination (ps : List Product) (q : Query) (p l : Int)
    (fid : String)
    (hp : pageOf q.page = some p) (hl : limitOf q.limit = some l)
    (hp1 : 1 ≤ p) (hl0 : 0 ≤ l) :
    handle fid (listRequest q) ps =
      ({ statusCode := 200,
         body := .listEnv (some p) (listFiltered q.category ps).length
           (specSlice (listFiltered q.category ps) ((p - 1) * l)
             ((p - 1) * l + l)) }, ps) ∧
    pageOf none = some 1 ∧ limitOf none = some 3 ∧
    (∀ c : String, c ≠ "" →
      listFiltered (some c) ps = ps.filter (fun x => x.category == some c)) ∧
    listFiltered none ps = ps := by
  refine ⟨?_, rfl, rfl, fun c hc => ?_, rfl⟩
  · have h1 : handle fid (listRequest q) ps = (listHandler q ps, ps) := rfl
    have h2 : listHandler q ps =
        { statusCode := 200,
          body := .listEnv (pageOf q.page)
            (listFiltered q.category ps).length
            (jsSlice (listFiltered q.category ps)
              (jsMul (jsSub (pageOf q.page) (some 1)) (limitOf q.limit))
              (jsAdd (jsMul (jsSub (pageOf q.page) (some 1))
                (limitOf q.limit)) (limitOf q.limit))) } := rfl
    rw [h1, h2, hp, hl]
    have hs : (0 : Int) ≤ (p - 1) * l := mul_nonneg (by omega) hl0
    rw [show jsMul (jsSub (some p) (some 1)) (some l) =
        some ((p - 1) * l) from rfl,
      show jsAdd (some ((p - 1) * l)) (some l) =
        some ((p - 1) * l + l) from rfl,
      jsSlice_eq_specSlice _ _ _ hs (add_nonneg hs hl0)]
  · unfold listFiltered
    rw [if_pos (by simp [strTruthy, hc])]

/-- Witness for C4 (amended): page 2, limit 2 on the seed data. -/
theorem c4_list_pagination_witness :
    handle "fresh"
      (listRequest { emptyQuery with page := some "2", limit := some "2" })
      seedProducts =
      ({ statusCode := 200,
         body := .listEnv (some 2) 3
           (specSlice seedProducts ((2 - 1) * 2) ((2 - 1) * 2 + 2)) },
       seedProducts) :=
  (c4_list_pagination seedProducts
    { emptyQuery with page := some "2", limit := some "2" } 2 2 "fresh"
    (by decide) (by decide) (by decide) (by decide)).1

/-- C5: for an id not present in the collection, the by-id read, the
authorised validated update, and the authorised delete all answer 404 with
the message naming the requested id, leaving the collection unchanged; and
when the collection's ids are duplicate-free, the read of an id directly
after its successful deletion is such a 404. -/
theorem c5_missing_id_yields_404 (ps : List Product) (id fid : String)
    (b : Body) :
    ((∀ p ∈ ps, p.id ≠ id) → validateProduct b = none →
      (id ≠ "search" → id ≠ "stats" →
        handle fid (getIdRequest id) ps =
          ({ statusCode := 404, body := .errorEnv (idNotFoundMessage id) },
           ps)) ∧
      handle fid (putRequest id (some "mysecretapikey") b) ps =
        ({ statusCode := 404, body := .errorEnv (idNotFoundMessage id) },
         ps) ∧
      handle fid (deleteRequest id (some "mysecretapikey")) ps =
        ({ statusCode := 404, body := .errorEnv (idNotFoundMessage id) },
         ps)) ∧
    ((ps.map Product.id).Nodup →
      ∀ r ps2, deleteHandler id ps = .ok (r, ps2) →
        getByIdHandler id ps2 =
          .error (notFoundError (idNotFoundMessage id))) := by
  constructor
  · intro habs hv
    have hfn : ps.find? (fun p => p.id == id) = none :=
      List.find?_eq_none.mpr (fun p hp => by
        simp only [beq_iff_eq]
        exact habs p hp)
    have hfin : ps.findIdx? (fun p => p.id == id) = none :=
      List.findIdx?_eq_none_iff.mpr (fun p hp => by
        simp only [beq_eq_false_iff_ne, ne_eq]
        exact habs p hp)
    have hget : getByIdHandler id ps =
        .error (notFoundError (idNotFoundMessage id)) := by
      unfold getByIdHandler
      rw [hfn]
    have hupd : updateHandler id b ps =
        .error (notFoundError (idNotFoundMessage id)) := by
      unfold updateHandler
      rw [hfin]
    have hdel : deleteHandler id ps =
        .error (notFoundError (idNotFoundMessage id)) := by
      unfold deleteHandler
      rw [hfin]
    refine ⟨fun h1 h2 => ?_, ?_, ?_⟩
    · rw [handle_eq_getById fid id ps h1 h2, hget]
      rfl
    · have hput : handle fid (putRequest id (some "mysecretapikey") b) ps =
          (match validateProduct b with
           | some e => (errorHandler e, ps)
           | none =>
             match updateHandler id b ps with
             | .ok rp => rp
             | .error e => (errorHandler e, ps)) := rfl
      rw [hput, hv, hupd]
      rfl
    · have hdl : handle fid (deleteRequest id (some "mysecretapikey")) ps =
          (match deleteHandler id ps with
           | .ok rp => rp
           | .error e => (errorHandler e, ps)) := rfl
      rw [hdl, hdel]
      rfl
  · intro hnd r ps2 hdel
    rcases hfi : ps.findIdx? (fun p => p.id == id) with - | i
    · have hD : deleteHandler id ps =
          .error (notFoundError (idNotFoundMessage id)) := by
        unfold deleteHandler
        rw [hfi]
      rw [hD] at hdel
      cases hdel
    · have hD : deleteHandler id ps =
          .ok ({ statusCode := 200,
                 body := .dataEnv (some "Product successfully deleted")
                   (ps.getD i (newProductOf "" emptyBody)) },
               ps.eraseIdx i) := by
        unfold deleteHandler
        rw [hfi]
      rw [hD] at hdel
      injection hdel with hpair
      injection hpair with hr hps2
      subst hps2
      have hcount : (ps.eraseIdx i).countP (fun p => p.id == id) + 1 =
          ps.countP (fun p => p.id == id) :=
        countP_eraseIdx_findIdx? _ ps i hfi
      have hle : ps.countP (fun p => p.id == id) ≤ 1 := by
        have hc := List.nodup_iff_count_le_one.mp hnd id
        calc ps.countP (fun p => p.id == id)
            = (ps.map Product.id).countP (fun s => s == id) := by
              rw [List.countP_map]
              rfl
          _ = List.count id (ps.map Product.id) := rfl
          _ ≤ 1 := hc
      have h0 : (ps.eraseIdx i).countP (fun p => p.id == id) = 0 := by
        omega
      unfold getByIdHandler
      rw [List.find?_eq_none.mpr (List.countP_eq_zero.mp h0)]

/-- Witness for C5 on the seed data: the unknown id "77", and the read of
id "2" directly after its deletion. -/
theorem c5_missing_id_yields_404_witness :
    handle "fresh" (getIdRequest "77") seedProducts =
      ({ statusCode := 404, body := .errorEnv (idNotFoundMessage "77") },
       seedProducts) ∧
    getByIdHandler "2" [laptop, coffeeMaker] =
      .error (notFoundError (idNotFoundMessage "2")) :=
  ⟨((c5_missing_id_yields_404 seedProducts "77" "fresh" widgetBody).1
      (by decide) rfl).1 (by decide) (by decide),
   (c5_missing_id_yields_404 seedProducts "2" "fresh" widgetBody).2
      (by decide)
      { statusCode := 200,
        body := .dataEnv (some "Product successfully deleted") smartphone }
      [laptop, coffeeMaker] rfl⟩

/-- C6: an authorised, validated create appends a record carrying the
generated id (which the excluded `uuidv4` primitive guarantees distinct
from every existing id, modelled as the freshness hypothesis), defaults
`inStock` to true when the field is omitted, leaves every existing record
in place, and replies 201 with the created record. -/
theorem c6_create_appends_fresh_record (ps : List Product) (b : Body)
    (fid : String) (hv : validateProduct b = none)
    (hfresh : ∀ p ∈ ps, p.id ≠ fid) :
    handle fid (postRequest (some "mysecretapikey") b) ps =
      ({ statusCode := 201,
         body := .dataEnv (some "Product successfully added")
           (newProductOf fid b) },
       ps ++ [newProductOf fid b]) ∧
    (newProductOf fid b).id = fid ∧
    (∀ p ∈ ps, p.id ≠ (newProductOf fid b).id) ∧
    (b.inStock = none → (newProductOf fid b).inStock = true) ∧
    (∀ j, j < ps.length → (ps ++ [newProductOf fid b])[j]? = ps[j]?) ∧
    (ps ++ [newProductOf fid b])[ps.length]? =
      some (newProductOf fid b) := by
  refine ⟨?_, rfl, hfresh, fun h => by simp [newProductOf, h],
    fun j hj => ?_, ?_⟩
  · have h1 : handle fid (postRequest (some "mysecretapikey") b) ps =
        (match validateProduct b with
         | some e => (errorHandler e, ps)
         | none => createHandler fid b ps) := rfl
    rw [h1, hv]
    rfl
  · rw [List.getElem?_append, if_pos hj]
  · rw [List.getElem?_append, if_neg (lt_irrefl _), Nat.sub_self]
    rfl

/-- Witness for C6 on the seed data with a fresh id "u-1". -/
theorem c6_create_appends_fresh_record_witness :
    handle "u-1" (postRequest (some "mysecretapikey") widgetBody)
      seedProducts =
      ({ statusCode := 201,
         body := .dataEnv (some "Product successfully added")
           (newProductOf "u-1" widgetBody) },
       seedProducts ++ [newProductOf "u-1" widgetBody]) :=
  (c6_create_appends_fresh_record seedProducts widgetBody "u-1" rfl
    (by decide)).1

/-- C9: the stats endpoint maps every category key occurring in the
collection — and only those, discovered dynamically by the single reduce
pass — to the number of records carrying it; on the seed data the result is
exactly electronics at 2 and kitchen at 1. -/
theorem c9_stats_counts_by_category :
    (∀ (ps : List Product) (c : String),
      lookupCount (statsOf ps) c =
        ps.countP (fun p => categoryKey p == c)) ∧
    (∀ (ps : List Product) (c : String),
      c ∈ (statsOf ps).map Prod.fst ↔ ∃ p ∈ ps, categoryKey p = c) ∧
    handle "fresh" statsRequest seedProducts =
      ({ statusCode := 200,
         body := .statsEnv [("electronics", 2), ("kitchen", 1)] },
       seedProducts) := by
  refine ⟨fun ps c => ?_, fun ps c => ?_, rfl⟩
  · have h := lookupCount_statsAux ps [] c
    simpa [statsOf, lookupCount] using h
  · have h := keys_statsAux ps [] c
    simpa [statsOf] using h

/-- Witness for C10 at a `page` value that does not parse. -/
theorem c10_list_nan_returns_empty_witness :
    handle "fresh" (listRequest { emptyQuery with page := some "abc" })
      seedProducts =
      ({ statusCode := 200, body := .listEnv none 3 [] }, seedProducts) :=
  c10_list_nan_returns_empty { emptyQuery with page := some "abc" }
    seedProducts "fresh" (Or.inl (by decide))

end ProductApi
